import Mathlib

/-
Verification development for the File_Certify_As_Code repository: a shallow
embedding, in Lean 4, of the mount lifecycle manager (exec_mounts.py), the
syslog priority decoder (exec_syslog.py), the test discovery and sequencing
engine together with representative test bodies (test_nfs.py), the NFS3 suite
runner helpers (nfs3_test_suite.py), and the report summariser
(colorful_logger.py).  Exception-raising code is embedded with explicit
result values, subprocess and filesystem effects as explicit oracle inputs,
and list mutation as explicit state passing.
-/

set_option autoImplicit false
set_option linter.unusedVariables false
set_option maxRecDepth 8192

namespace FileCertify

/-! Helpers modelling Python string primitives

Python's `str.strip()` removes leading and trailing whitespace.  We model the
ASCII whitespace characters (space, tab, newline, carriage return, vertical
tab, form feed), which covers every input appearing in this development.
-/

def isPySpace (c : Char) : Bool :=
  c = ' ' || c = '\t' || c = '\n' || c = '\r' || c = Char.ofNat 11 || c = Char.ofNat 12

/-- Drop leading Python whitespace from a character list. -/
def stripLeading (l : List Char) : List Char :=
  l.dropWhile isPySpace

/-- Drop trailing Python whitespace from a character list. -/
def stripTrailing (l : List Char) : List Char :=
  (l.reverse.dropWhile isPySpace).reverse

/-- Model of Python `str.strip()` on character lists. -/
def pyStripL (l : List Char) : List Char :=
  stripTrailing (stripLeading l)

/-- Model of Python `str.strip()`. -/
def pyStrip (s : String) : String :=
  String.mk (pyStripL s.data)

/-- Value of a list of decimal digit characters, most significant first;
models Python `int(...)` applied to the digit group of a regex match. -/
def digitsToNat (ds : List Char) : Nat :=
  ds.foldl (fun acc c => 10 * acc + (c.toNat - 48)) 0

/-- Substring search on character lists: `needle` occurs contiguously in `hay`. -/
def listIsInfixOf (needle : List Char) : List Char → Bool
  | [] => needle.isPrefixOf []
  | c :: rest => needle.isPrefixOf (c :: rest) || listIsInfixOf needle rest

/-- Model of Python substring containment `needle in hay`. -/
def pyContains (hay needle : String) : Bool :=
  listIsInfixOf needle.data hay.data

/-- Model of Python `str.startswith`. -/
def pyStartsWith (s pfx : String) : Bool :=
  pfx.data.isPrefixOf s.data

/-! Embedding of exec_syslog.py — syslog facility/severity decoding

`FACILITIES` and `SEVERITIES` embed the module-level dictionaries of
`exec_syslog.py` (lines 21–31); note the source's facility dictionary has no
entries for codes 12–15.  `decode_priority` embeds the function of the same
name (lines 34–44): the input is modelled after UTF-8 decoding, and the regex
match of `^<(\d+)>(.*)` (DOTALL) is modelled by `parse_pri_header`.
-/

def FACILITIES : Nat → Option String
  | 0 => some "kern" | 1 => some "user" | 2 => some "mail" | 3 => some "daemon"
  | 4 => some "auth" | 5 => some "syslog" | 6 => some "lpr" | 7 => some "news"
  | 8 => some "uucp" | 9 => some "cron" | 10 => some "authpriv" | 11 => some "ftp"
  | 16 => some "local0" | 17 => some "local1" | 18 => some "local2" | 19 => some "local3"
  | 20 => some "local4" | 21 => some "local5" | 22 => some "local6" | 23 => some "local7"
  | _ => none

def SEVERITIES : Nat → Option String
  | 0 => some "EMERG" | 1 => some "ALERT" | 2 => some "CRIT" | 3 => some "ERROR"
  | 4 => some "WARN" | 5 => some "NOTICE" | 6 => some "INFO" | 7 => some "DEBUG"
  | _ => none

/-- Match of the regex `^<(\d+)>(.*)` with `re.DOTALL` against the stripped
message: a leading `<`, one or more digits, `>`, and the (possibly
newline-containing) remainder.  Returns the parsed PRI and the raw body. -/
def parse_pri_header (msg : String) : Option (Nat × String) :=
  match msg.data with
  | '<' :: rest =>
    match rest.span Char.isDigit with
    | ([], _) => none
    | (ds, rest') =>
      match rest' with
      | '>' :: body => some (digitsToNat ds, String.mk body)
      | _ => none
  | _ => none

/-- Embedding of `decode_priority` (exec_syslog.py lines 34–44): strip the
decoded text, try the `<PRI>` header, and on a match map `PRI >> 3` through
`FACILITIES` (falling back to `fac<N>`) and `PRI & 0x7` through `SEVERITIES`
(falling back to `sev<N>`), stripping the body; otherwise return
`unknown`/`unknown` with the stripped message. -/
def decode_priority (raw : String) : String × String × String :=
  let msg := pyStrip raw
  match parse_pri_header msg with
  | some (pri, body) =>
    let facility := (FACILITIES (pri >>> 3)).getD ("fac" ++ toString (pri >>> 3))
    let severity := (SEVERITIES (pri &&& 7)).getD ("sev" ++ toString (pri &&& 7))
    (facility, severity, pyStrip body)
  | none => ("unknown", "unknown", msg)

/-! Embedding of exec_mounts.py — the mount lifecycle manager

`MOUNT_OPTIONS` embeds the dataclass of the same name (exec_mounts.py lines
16–39).  In the source, `mount_mode` carries no type annotation, so it is a
plain class attribute rather than a dataclass field: it does not appear in the
dataclass `repr`.  Python `int` fields are `Int`, `str` fields `String`, and
the `actimeo: int = None` field an `Option Int`.
-/

structure MOUNT_OPTIONS where
  mount_mode : String := "rw"
  majorvers : Int := 3
  minorversion : Int := 0
  pnfs : Bool := false
  nconnect : Bool := false
  nconnect_count : Int := 4
  transport : String := "tcp"
  rsize : Int := 1048576
  wsize : Int := 1048576
  timeo : Int := 600
  retrans : Int := 2
  soft : Bool := false
  intr : Bool := true
  noac : Bool := false
  actimeo : Option Int := none
  acregmin : Int := 3
  acregmax : Int := 60
  acdirmin : Int := 30
  acdirmax : Int := 60
  nosharecache : Bool := false
  nordirplus : Bool := false
  sec : String := "sys"
deriving Repr, DecidableEq

/-- Python `repr` of a bool. -/
def pyReprBool (b : Bool) : String :=
  if b then "True" else "False"

/-- Python rendering of an `int`-annotated field holding `None` or an int. -/
def pyReprOptInt : Option Int → String
  | none => "None"
  | some i => toString i

/-- The dataclass `repr` of a `MOUNT_OPTIONS` value, as produced by Python's
`str(...)`: the annotated fields in declaration order (`mount_mode` is absent
because it has no annotation).  The test sequencing engine inspects this
string for version gating (test_nfs.py lines 162, 181, 198). -/
def reprMOUNT_OPTIONS (o : MOUNT_OPTIONS) : String :=
  "MOUNT_OPTIONS(majorvers=" ++ toString o.majorvers ++
  ", minorversion=" ++ toString o.minorversion ++
  ", pnfs=" ++ pyReprBool o.pnfs ++
  ", nconnect=" ++ pyReprBool o.nconnect ++
  ", nconnect_count=" ++ toString o.nconnect_count ++
  ", transport='" ++ o.transport ++ "'" ++
  ", rsize=" ++ toString o.rsize ++
  ", wsize=" ++ toString o.wsize ++
  ", timeo=" ++ toString o.timeo ++
  ", retrans=" ++ toString o.retrans ++
  ", soft=" ++ pyReprBool o.soft ++
  ", intr=" ++ pyReprBool o.intr ++
  ", noac=" ++ pyReprBool o.noac ++
  ", actimeo=" ++ pyReprOptInt o.actimeo ++
  ", acregmin=" ++ toString o.acregmin ++
  ", acregmax=" ++ toString o.acregmax ++
  ", acdirmin=" ++ toString o.acdirmin ++
  ", acdirmax=" ++ toString o.acdirmax ++
  ", nosharecache=" ++ pyReprBool o.nosharecache ++
  ", nordirplus=" ++ pyReprBool o.nordirplus ++
  ", sec='" ++ o.sec ++ "')"

/-- Embedding of `_build_mount_options` (exec_mounts.py lines 45–104).  The
`raise ValueError(...)` for an NFSv4 minor version above 2 becomes an
`Except.error`; every other path assembles the comma-joined option string in
source order. -/
def _build_mount_options (o : MOUNT_OPTIONS) : Except String String :=
  let versOpts : Except String (List String) :=
    if o.majorvers = 3 then .ok ["vers=3"]
    else if o.majorvers = 4 then
      if o.minorversion > 2 then
        .error "ValueError: Invalid minor version for NFSv4: must be 0, 1, or 2"
      else .ok ["vers=4." ++ toString o.minorversion]
    else .ok []
  match versOpts with
  | .error e => .error e
  | .ok vs =>
    let opts :=
      [o.mount_mode] ++ vs ++
      ["proto=" ++ o.transport,
       "rsize=" ++ toString o.rsize,
       "wsize=" ++ toString o.wsize,
       "timeo=" ++ toString o.timeo,
       "retrans=" ++ toString o.retrans,
       if o.soft then "soft" else "hard"] ++
      (if o.intr ∧ o.majorvers = 3 then ["intr"] else []) ++
      (if o.noac then ["noac"]
       else match o.actimeo with
         | some a => ["actimeo=" ++ toString a]
         | none =>
           ["acregmin=" ++ toString o.acregmin,
            "acregmax=" ++ toString o.acregmax,
            "acdirmin=" ++ toString o.acdirmin,
            "acdirmax=" ++ toString o.acdirmax]) ++
      (if o.majorvers = 4 ∧ o.minorversion ≥ 1 then
        (if o.pnfs then ["pnfs"] else []) ++
        (if o.nconnect then ["nconnect=" ++ toString o.nconnect_count] else []) ++
        (if o.nosharecache then ["nosharecache"] else []) ++
        (if o.nordirplus then ["nordirplus"] else [])
       else []) ++
      ["sec=" ++ o.sec]
    .ok (String.intercalate "," opts)

/-- A Python call either returns a value or raises an exception that the
callee did not catch. -/
inductive PyOutcome (α : Type) where
  | returned (v : α)
  | raised (e : String)
deriving Repr, DecidableEq

/-- Return value of `exec_mounts.mount_nas`: the source returns either a bare
`False` (missing root privilege) or a `(bool, mount_point)` tuple. -/
inductive PyMountRet where
  | single (b : Bool)
  | pair (ok : Bool) (mount_point : String)
deriving Repr, DecidableEq

/-- Oracle for the operating-system effects that `exec_mounts.mount_nas`
observes.  `inMountTable` records whether the mount point is present in the
live mount table after the mount command runs; `exec_mounts.mount_nas` never
reads it (its caller checks `os.path.ismount` separately), which is exactly
what claim C2 is about. -/
structure MountEnv where
  euid : Nat := 0
  tmpGenerated : String := "/tmp/zCertTMP/tmpabc"
  isdir : Bool := true
  makedirsOk : Bool := true
  runTimeout : Bool := false
  runExc : Option String := none
  returncode : Int := 0
  stderr : String := ""
  chownOk : Bool := true
  inMountTable : Bool := true
deriving Repr, DecidableEq

/-- Observable result of one `exec_mounts.mount_nas` call: what the function
returned (or raised), whether the OS `mount` subprocess was invoked, and the
command that was assembled (none when control left before assembling it). -/
structure MountCall where
  result : PyOutcome PyMountRet
  invokedMount : Bool
  command : Option (List String)
deriving Repr, DecidableEq

/-- Embedding of `mount_nas` (exec_mounts.py lines 110–212).  Control flow in
source order: the root-privilege check returns a bare `False`; `"TMP"` is
replaced by the generated temp path; `_build_mount_options` is called before
the `try` block, so its `ValueError` propagates uncaught; dry-run returns
success without any subprocess; otherwise the mount-point directory is
created if missing, the mount command runs with a 30 s timeout, and exit
code 0 alone determines success (a chown failure is logged, not fatal; the
live mount table is never consulted). -/
def mount_nas (env : MountEnv) (nfs_server nfs_export mount_point : String)
    (uid gid : Nat) (options : MOUNT_OPTIONS) (dry_run : Bool) : MountCall :=
  if env.euid ≠ 0 then ⟨.returned (.single false), false, none⟩
  else
    let mount_point := if mount_point = "TMP" then env.tmpGenerated else mount_point
    match _build_mount_options options with
    | .error e => ⟨.raised e, false, none⟩
    | .ok opts_str =>
      let source := nfs_server ++ ":" ++ nfs_export
      let command := ["mount", "-t", "nfs", "-o", opts_str, source, mount_point]
      if dry_run then ⟨.returned (.pair true mount_point), false, some command⟩
      else if ¬env.isdir ∧ ¬env.makedirsOk then
        ⟨.returned (.pair false mount_point), false, some command⟩
      else if env.runTimeout then
        ⟨.returned (.pair false mount_point), true, some command⟩
      else
        match env.runExc with
        | some _ => ⟨.returned (.pair false mount_point), true, some command⟩
        | none =>
          if env.returncode = 0 then
            ⟨.returned (.pair true mount_point), true, some command⟩
          else
            ⟨.returned (.pair false mount_point), true, some command⟩

/-- Return value of `exec_mounts.unmount_nas`: a bare bool (privilege check
and dry-run paths) or the `(bool, bool)` tuple of the remaining paths. -/
inductive PyUnmountRet where
  | single (b : Bool)
  | pair (unmounted removed : Bool)
deriving Repr, DecidableEq

/-- Oracle for the OS effects observed by `exec_mounts.unmount_nas`. -/
structure UnmountEnv where
  euid : Nat := 0
  isdir : Bool := true
  runTimeout : Bool := false
  runExc : Option String := none
  returncode : Int := 0
  stderr : String := ""
  rmdirExc : Option String := none
  existsAfterRmdir : Bool := false
deriving Repr, DecidableEq

/-- Observable result of one `exec_mounts.unmount_nas` call. -/
structure UnmountCall where
  result : PyOutcome PyUnmountRet
  invokedUmount : Bool
deriving Repr, DecidableEq

/-- Embedding of `unmount_nas` (exec_mounts.py lines 218–291).  Source-order
control flow: non-root returns bare `False`; dry-run returns bare `True`
before the directory check; a mount point whose directory no longer exists
returns `(False, False)` after a warning, without running `umount`; otherwise
the command runs, exit 0 leads to `os.rmdir` and the post-condition check,
and every exception inside the `try` (timeout included) is caught and turned
into `(False, False)` — the function never raises. -/
def unmount_nas (env : UnmountEnv) (mount_point : String)
    (force lazy dry_run : Bool) : UnmountCall :=
  if env.euid ≠ 0 then ⟨.returned (.single false), false⟩
  else if dry_run then ⟨.returned (.single true), false⟩
  else if ¬env.isdir then ⟨.returned (.pair false false), false⟩
  else if env.runTimeout then ⟨.returned (.pair false false), true⟩
  else
    match env.runExc with
    | some _ => ⟨.returned (.pair false false), true⟩
    | none =>
      if env.returncode = 0 then
        match env.rmdirExc with
        | some _ => ⟨.returned (.pair false false), true⟩
        | none =>
          if env.existsAfterRmdir then ⟨.returned (.pair true false), true⟩
          else ⟨.returned (.pair true true), true⟩
      else ⟨.returned (.pair false false), true⟩

/-- Truth of "this `exec_mounts.mount_nas` outcome reports a successful
mount to the caller". -/
def mountReportsSuccess : PyOutcome PyMountRet → Bool
  | .returned (.pair true _) => true
  | .returned (.single b) => b
  | _ => false

/-- Truth of "this `exec_mounts.unmount_nas` outcome reports a successful
unmount to the caller". -/
def unmountReportsSuccess : PyOutcome PyUnmountRet → Bool
  | .returned (.pair b _) => b
  | .returned (.single b) => b
  | _ => false

/-! Embedding of the TestResult record and log_result

`log_result` (test_nfs.py lines 256–275, and the identically-shaped
`nfs3_test_suite.py` lines 161–180) builds the result dict and appends it to
`all_results` only when that argument is not `None`.  The mutable Python list
becomes explicit state: the function returns the updated accumulator. -/

structure TestResult where
  test : String
  description : String
  passed : Bool
  message : String
  timestamp : Nat
deriving Repr, DecidableEq

/-- Embedding of `log_result`: append the freshly built result to the shared
sequence when one was supplied (`if all_results is not None`), and return
the result record as the source does. -/
def log_result (test_name test_description : String) (passed : Bool)
    (message : String) (timestamp : Nat)
    (all_results : Option (List TestResult)) :
    Option (List TestResult) × TestResult :=
  let result : TestResult :=
    { test := test_name, description := test_description, passed := passed,
      message := message, timestamp := timestamp }
  (all_results.map (fun rs => rs ++ [result]), result)

/-! Embedding of nfs3_test_suite.py mount and summary helpers -/

/-- Return value of `nfs3_test_suite.mount_nas`: a bare `False` on non-zero
exit, a `(bool, mount_point)` tuple otherwise, and Python `None` when the
`except` clause is reached (the function then falls off its end). -/
inductive Nfs3MountRet where
  | retNone
  | single (b : Bool)
  | pair (ok : Bool) (mount_point : String)
deriving Repr, DecidableEq

/-- Oracle for the OS effects observed by `nfs3_test_suite.mount_nas`:
`tmpPath` is the `tempfile.mkdtemp` result, `excOpt` any exception raised in
the `try` body (all of which the function catches), `returncode`/`stderr`
come from the mount subprocess, and `mountListOut` is the stdout of the
follow-up `mount` listing — the live mount table. -/
structure Nfs3MountEnv where
  tmpPath : String := "/tmp/nfs3_test_abc"
  pathExists : Bool := true
  excOpt : Option String := none
  returncode : Int := 0
  stderr : String := ""
  mountListOut : String := ""
deriving Repr, DecidableEq

/-- Embedding of `nfs3_test_suite.mount_nas` (lines 89–141): on non-zero exit
return bare `False`; on exit 0 run `mount` and report success exactly when
the mount point appears in its output; any exception is caught and the
function returns `None`. -/
def nfs3_mount_nas (env : Nfs3MountEnv)
    (nfs_server nfs_export mount_type : String) (uid gid : Nat) : Nfs3MountRet :=
  match env.excOpt with
  | some _ => .retNone
  | none =>
    if env.returncode ≠ 0 then .single false
    else if pyContains env.mountListOut env.tmpPath then .pair true env.tmpPath
    else .pair false env.tmpPath

/-- Truth of "this `nfs3_test_suite.mount_nas` return value reports a
successful mount". -/
def nfs3ReportsSuccess : Nfs3MountRet → Bool
  | .pair ok _ => ok
  | .single b => b
  | .retNone => false

/-- Embedding of `print_summary` (nfs3_test_suite.py lines 967–985): computes
total/passed/failed and formats `100*passed/total` and `100*failed/total`.
In Python these are float divisions that raise `ZeroDivisionError` when the
results list is empty; the embedding returns the counts together with the two
exact percentages (the `.1f` float formatting is presentation only and is not
modelled). -/
def print_summary (the_results : List TestResult) :
    Except String (Nat × Nat × Nat × Rat × Rat) :=
  let total := the_results.length
  let passed := (the_results.filter (·.passed)).length
  let failed := total - passed
  if total = 0 then .error "ZeroDivisionError: division by zero"
  else .ok (total, passed, failed,
    (100 * (passed : Rat)) / (total : Rat),
    (100 * (failed : Rat)) / (total : Rat))

/-! Embedding of colorful_logger.py report summary -/

/-- Entries of `TextDocLogger.log_entries` (colorful_logger.py lines 160–200):
test starts, steps, and test results, with formatted timestamps. -/
inductive LogEntry where
  | test_start (test_name description ts : String)
  | step (content : String)
  | test_result (test_name : String) (passed : Bool) (message ts : String)
deriving Repr, DecidableEq

/-- Projection selecting the `test_result` entries, as the list comprehension
at colorful_logger.py line 266 does. -/
def entryResult : LogEntry → Option (String × Bool × String)
  | .test_result n p m _ => some (n, p, m)
  | _ => none

/-- Rendering of the percentage in `generate_report`, one decimal place by
truncation; the exact float rounding of Python's `:.1f` is presentation
detail not depended on by any claim. -/
def successRateText (passed total : Nat) : String :=
  let tenths := (1000 * passed) / total
  toString (tenths / 10) ++ "." ++ toString (tenths % 10) ++ "%"

/-- Embedding of the summary section of `TextDocLogger.generate_report`
(colorful_logger.py lines 261–281): counts over the `test_result` entries,
with the percentage line guarded — `"N/A"` is appended when `total` is zero —
followed by the failed-test enumeration. -/
def generate_report_summary_lines (entries : List LogEntry) : List String :=
  let results := entries.filterMap entryResult
  let total := results.length
  let passed := (results.filter (fun r => r.2.1)).length
  let failed := total - passed
  ["Total Tests: " ++ toString total,
   "Passed: " ++ toString passed,
   "Failed: " ++ toString failed,
   if total > 0 then "Success Rate: " ++ successRateText passed total else "N/A",
   ""] ++
  (if failed > 0 then
    "Failed Tests:" ::
      (results.filter (fun r => ¬ r.2.1)).map
        (fun r => "  ✗ " ++ r.1 ++ ": " ++ r.2.2)
   else [])

/-! Embedding of test_nfs.py — test bodies

Each test body interacts with the filesystem; those effects are supplied by a
per-test oracle whose fields name the fallible source steps.  A body returns
the updated shared accumulator (Python mutates the list in place, so appends
made before an uncaught exception persist) and whether it returned normally
or let an exception escape to the sequencing engine. -/

/-- Exit mode of one test-body invocation as seen by the sequencing engine. -/
inductive BodyExit where
  | normal
  | raised (e : String)
deriving Repr, DecidableEq

/-- Oracle for `test_nfs_basic_file_operations`: `createDirOk`/`createDirVal`
model `create_test_directory` (test_nfs.py lines 246–253, its own
`try`/`except` returning a flag plus path-or-error), and `ioExc` is the first
exception, if any, raised by the write/read/assert/delete phases inside the
test's `try` block (all are handled identically by its `except`). -/
structure BasicFileOracle where
  createDirOk : Bool := true
  createDirVal : String := "/mnt/x/test_1"
  ioExc : Option String := none
  ts : Nat := 0
deriving Repr, DecidableEq

/-- Embedding of `test_nfs_basic_file_operations` (test_nfs.py lines
406–455): a failed test-directory creation records a failure; an exception in
the phases records a failure with `str(e)`; otherwise a success record.  All
three `log_result` calls pass `all_results`, so this body always appends
exactly one record. -/
def test_nfs_basic_file_operations (o : BasicFileOracle)
    (all_results : Option (List TestResult)) :
    Option (List TestResult) × BodyExit :=
  let test_name := "basic_file_operations"
  let test_description :=
    "Perform basic file operations (create, read, delete) to verify functionality"
  if ¬o.createDirOk then
    ((log_result test_name test_description false
        ("Failed to create test directory: " ++ o.createDirVal) o.ts all_results).1,
     .normal)
  else
    match o.ioExc with
    | some e =>
      ((log_result test_name test_description false e o.ts all_results).1, .normal)
    | none =>
      ((log_result test_name test_description true
          "Basic file operations completed successfully" o.ts all_results).1, .normal)

/-- Oracle for `test_nfs_small_file_performance`: `mkSubdirExc` models
`os.makedirs(test_subdir, exist_ok=True)` at line 532, which sits outside
the test's `try` block; `ioExc` the phases inside it; `perfMsg` the
timing-dependent rates text of the success message. -/
structure SmallFileOracle where
  createDirOk : Bool := true
  createDirVal : String := "/mnt/x/test_1"
  mkSubdirExc : Option String := none
  ioExc : Option String := none
  perfMsg : String := "100 files - Create: 100 ops/s, Read: 100 ops/s, Delete: 100 ops/s"
  ts : Nat := 0
deriving Repr, DecidableEq

/-- Embedding of `test_nfs_small_file_performance` (test_nfs.py lines
513–578).  The failed-directory path (line 528) passes `all_results` to
`log_result`; an exception from `os.makedirs` at line 532 propagates uncaught
to the sequencing engine; and both `log_result` calls of the `try` block
(success at line 575, failure at line 578) omit the `all_results` argument,
so it defaults to `None` and nothing is appended on those paths. -/
def test_nfs_small_file_performance (o : SmallFileOracle)
    (all_results : Option (List TestResult)) :
    Option (List TestResult) × BodyExit :=
  let test_name := "small_file_performance"
  let test_description :=
    "Measure performance of creating, reading, and deleting 100 small files to evaluate small file operation performance of NFS3"
  if ¬o.createDirOk then
    ((log_result test_name test_description false
        ("Failed to create test directory: " ++ o.createDirVal) o.ts all_results).1,
     .normal)
  else
    match o.mkSubdirExc with
    | some e => (all_results, .raised e)
    | none =>
      match o.ioExc with
      | some e =>
        let _ := log_result test_name test_description false e o.ts none
        (all_results, .normal)
      | none =>
        let _ := log_result test_name test_description true o.perfMsg o.ts none
        (all_results, .normal)

/-- Oracle for `test_nfs_concurrent_writers`: `writerResults` holds the
joined per-writer success booleans produced by `executor.map(writer_task,
range(num_writers))` — the `with ThreadPoolExecutor` block and the `list`
materialisation guarantee every worker is joined before the body proceeds;
`execExc` is an exception raised inside the test's `try` block. -/
structure ConcurrentWritersOracle where
  num_writers : Nat := 10
  createDirOk : Bool := true
  createDirVal : String := "/mnt/x/test_1"
  writerResults : List Bool := List.replicate 10 true
  execExc : Option String := none
  durText : String := "0.50"
  ts : Nat := 0
deriving Repr, DecidableEq

/-- Embedding of `test_nfs_concurrent_writers` (test_nfs.py lines 581–641):
after all writers are joined, `success_count` is aggregated and a single
record is appended — with `passed` literally `True` (line 638) and the
comparison `success_count == num_writers` interpolated into the message text
instead of being used as the passed flag. -/
def test_nfs_concurrent_writers (o : ConcurrentWritersOracle)
    (all_results : Option (List TestResult)) :
    Option (List TestResult) × BodyExit :=
  let test_name := "concurrent_writers"
  let test_description :=
    "Verify that " ++ toString o.num_writers ++
    " concurrent writer threads can write to separate files without data corruption, confirming that NFS3 can handle concurrent write operations correctly"
  if ¬o.createDirOk then
    ((log_result test_name test_description false
        ("Failed to create test directory: " ++ o.createDirVal) o.ts all_results).1,
     .normal)
  else
    match o.execExc with
    | some e =>
      ((log_result test_name test_description false e o.ts all_results).1, .normal)
    | none =>
      let success_count := o.writerResults.count true
      let msg := toString success_count ++ " == " ++ toString o.num_writers ++
        " || " ++ toString success_count ++ "/" ++ toString o.num_writers ++
        " writers succeeded in " ++ o.durText ++ "s"
      ((log_result test_name test_description true msg o.ts all_results).1, .normal)

/-- Oracle for `test_nfs4_parallel_io_performance`, shaped like the
concurrent-writers oracle: `workerResults` are the joined `io_task` booleans
from `executor.map`, `thrText` the timing-dependent throughput text. -/
structure ParallelIoOracle where
  num_threads : Nat := 10
  createDirOk : Bool := true
  createDirVal : String := "/mnt/x/test_1"
  workerResults : List Bool := List.replicate 10 true
  execExc : Option String := none
  thrText : String := "40.00"
  ts : Nat := 0
deriving Repr, DecidableEq

/-- Embedding of `test_nfs4_parallel_io_performance` (test_nfs.py lines
1244–1306): all workers are joined inside the `with` block, then one record
is appended whose passed flag is the aggregate `success == num_threads`
(line 1302). -/
def test_nfs4_parallel_io_performance (o : ParallelIoOracle)
    (all_results : Option (List TestResult)) :
    Option (List TestResult) × BodyExit :=
  let test_name := "nfs4_parallel_io_performance"
  let test_description := "Verify NFS4 parallel I/O performance"
  if ¬o.createDirOk then
    ((log_result test_name test_description false
        ("Failed to create test directory: " ++ o.createDirVal) o.ts all_results).1,
     .normal)
  else
    match o.execExc with
    | some e =>
      ((log_result test_name test_description false e o.ts all_results).1, .normal)
    | none =>
      let success := o.workerResults.count true
      let msg := toString success ++ "/" ++ toString o.num_threads ++
        " threads, " ++ o.thrText ++ " MB/s"
      ((log_result test_name test_description (success = o.num_threads) msg o.ts
          all_results).1, .normal)

/-- Outcome of the write attempt `open(test_file, 'w')` on the read-only
mount: success, an `OSError`/`IOError` with its errno, or some other
exception (which the inner `except (OSError, IOError)` does not catch and
the outer `except Exception` does). -/
inductive WriteAttempt where
  | ok
  | osErr (errno : Int) (msg : String)
  | otherExc (msg : String)
deriving Repr, DecidableEq

/-- Embedding of `test_nfs_readonly_mount_enforcement` (test_nfs.py lines
710–745; the same logic appears as `test_readonly_mount_enforcement` in
nfs3_test_suite.py lines 820–855): a write that fails with errno 30 (EROFS)
or 13 (EACCES) records `passed=True`; a successful write records
`passed=False`; any other error records `passed=False` with its text. -/
def test_nfs_readonly_mount_enforcement (w : WriteAttempt) (ts : Nat)
    (all_results : Option (List TestResult)) :
    Option (List TestResult) × BodyExit :=
  let test_name := "readonly_mount_enforcement"
  let test_description :=
    "Verify that a read-only mount correctly blocks write operations, confirming that NFS3 enforces read-only access restrictions as expected"
  match w with
  | .ok =>
    ((log_result test_name test_description false
        "Write succeeded on ro mount!" ts all_results).1, .normal)
  | .osErr e m =>
    if e = 30 ∨ e = 13 then
      ((log_result test_name test_description true
          ("Write blocked as expected (errno " ++ toString e ++ ")") ts
          all_results).1, .normal)
    else
      ((log_result test_name test_description false m ts all_results).1, .normal)
  | .otherExc m =>
    ((log_result test_name test_description false m ts all_results).1, .normal)

/-! Embedding of test_nfs.py — discovery and sequencing engine -/

/-- One abstract test callable as the engine sees it: it receives the shared
results accumulator and yields the updated accumulator plus its exit mode.
Bodies return Python `None`, which is falsy in the engine's `if result:`. -/
def TestFun : Type :=
  Option (List TestResult) → Option (List TestResult) × BodyExit

/-- Embedding of the engine's dispatch loop (test_nfs.py lines 166–179,
repeated at 184–196 and 201–213): each invocation sits in its own
`try`/`except Exception` failure boundary; an escaped exception only
increments the `failed` counter and the loop proceeds — no result record is
appended at the sequencing layer (the error-logging line there is commented
out in the source).  Since every body returns `None`, the truthiness test
`if result:` always takes the else branch on normal returns as well. -/
def run_test_list (tests : List TestFun)
    (all_results : Option (List TestResult)) (passed failed : Nat) :
    Option (List TestResult) × Nat × Nat :=
  match tests with
  | [] => (all_results, passed, failed)
  | f :: rest =>
    match f all_results with
    | (rs, .normal) => run_test_list rest rs passed (failed + 1)
    | (rs, .raised _) => run_test_list rest rs passed (failed + 1)

/-- Module-level functions of test_nfs.py with their definition line numbers,
as observed by `inspect.getmembers(current_module, inspect.isfunction)`
together with `inspect.getsourcelines`; the imported `mount_nas`/`unmount_nas`
report their line numbers in exec_mounts.py.  Sorting by line number gives
the declared source order that the discovery relies on. -/
def moduleFunctionLines : List (String × Nat) :=
  [("nfs_test_suite", 102),
   ("mount_nas", 110),
   ("unmount_nas", 218),
   ("get_test_functions", 231),
   ("create_test_directory", 246),
   ("log_result", 256),
   ("test_nfs_mount_options_verification", 286),
   ("test_nfs_readwrite_mount_enforcement", 353),
   ("test_nfs_basic_file_operations", 406),
   ("test_nfs_close_to_open_consistency", 458),
   ("test_nfs_small_file_performance", 513),
   ("test_nfs_concurrent_writers", 581),
   ("test_nfs_large_file_sequential_io", 644),
   ("test_nfs_readonly_mount_enforcement", 710),
   ("test_nfs_readonly_mount_read_operations", 748),
   ("test_nfs3_transport_protocol", 788),
   ("test_nfs3_nlm_basic_locking", 835),
   ("test_nfs3_idempotent_operations", 900),
   ("test_nfs4_transport_protocol", 965),
   ("test_nfs4_stateful_operations", 1012),
   ("test_nfs4_compound_operations", 1061),
   ("test_nfs4_delegation_basic", 1110),
   ("test_nfs4_acls", 1155),
   ("test_nfs4_named_attributes", 1204),
   ("test_nfs4_parallel_io_performance", 1244),
   ("test_nfs4_minorversion_features", 1309)]

/-- Insertion of an entry into a line-number-sorted list, before any entry
with an equal or larger line number (all line numbers here are distinct). -/
def insertByLine (x : String × Nat) : List (String × Nat) → List (String × Nat)
  | [] => [x]
  | y :: ys => if x.2 ≤ y.2 then x :: y :: ys else y :: insertByLine x ys

/-- Stable sort by line number, modelling Python's `sorted(...,
key=lambda x: inspect.getsourcelines(x[1])[1])`. -/
def sortByLine : List (String × Nat) → List (String × Nat)
  | [] => []
  | x :: xs => insertByLine x (sortByLine xs)

/-- Embedding of `get_test_functions` (test_nfs.py lines 231–240): the
module members whose name starts with the given prefix, sorted by source
line number. -/
def get_test_functions (pfx : String) : List (String × Nat) :=
  sortByLine (moduleFunctionLines.filter (fun nl => pyStartsWith nl.1 pfx))

/-- Names of the test functions `nfs_test_suite` invokes, in invocation
order, for a mount whose `mount_nas` call and `os.path.ismount` check both
succeeded (test_nfs.py lines 113–213): the `test_nfs_` block always runs; the
`test_nfs3_` and `test_nfs4_` blocks are each guarded once per mount by a
substring test of `'majorvers=3'` (resp. `'majorvers=4'`) against
`str(MOUNT_OPTIONS(**nfs_options))`. -/
def nfs_suite_invoked_tests (options : MOUNT_OPTIONS) : List String :=
  let options_string := reprMOUNT_OPTIONS options
  let v0 := (get_test_functions "test_nfs_").map Prod.fst
  let v3 := (get_test_functions "test_nfs3_").map Prod.fst
  let v4 := (get_test_functions "test_nfs4_").map Prod.fst
  v0 ++
  (if pyContains options_string "majorvers=3" then v3 else []) ++
  (if pyContains options_string "majorvers=4" then v4 else [])

/-! Theorems settling the specification claims -/

/-- C1: the sequencing engine is claimed always to append exactly N
TestResult records for N discovered tests, recording erroring tests as
failures.  Evaluating the embedded engine refutes this: a two-test run in
which both tests complete normally appends only one record, because
`test_nfs_small_file_performance` omits the `all_results` argument in its
success- and failure-path `log_result` calls; and a run whose single test
raises from `os.makedirs` (outside its `try` block) appends no record at all
— the engine catches the exception, increments its `failed` counter, and
records nothing. -/
theorem C1_engine_drops_records :
    run_test_list
        [fun rs => test_nfs_basic_file_operations {} rs,
         fun rs => test_nfs_small_file_performance {} rs] (some []) 0 0
      = (some [{ test := "basic_file_operations",
                 description := "Perform basic file operations (create, read, delete) to verify functionality",
                 passed := true,
                 message := "Basic file operations completed successfully",
                 timestamp := 0 }], 0, 2)
    ∧ run_test_list
        [fun rs => test_nfs_small_file_performance
            { mkSubdirExc := some "OSError: [Errno 28] No space left on device" } rs]
        (some []) 0 0
      = (some [], 0, 1) := by
  constructor <;> rfl

/-- C3: the claim says an NFSv4 target with a minor version outside
{0, 1, 2} yields a returned failure value, never an uncaught exception.  The
code contradicts it (and its own docstrings): `_build_mount_options` is
called before `mount_nas`'s `try` block, so its `ValueError` propagates to
the caller; the OS mount command is never invoked. -/
theorem C3_invalid_minorversion_raises :
    mount_nas {} "s" "/e" "/mnt/x" 0 0 { majorvers := 4, minorversion := 3 } false
      = ⟨.raised "ValueError: Invalid minor version for NFSv4: must be 0, 1, or 2",
         false, none⟩ := by
  rfl

/-- C4 counterexample: calling `unmount_nas` (as root, not dry-run) on a
mount point whose directory no longer exists returns the failure value
`(False, False)`, not success, refuting the claimed idempotent-success
behaviour. -/
theorem C4_counterexample :
    unmount_nas { isdir := false } "/mnt/gone" false false false
        = ⟨.returned (.pair false false), false⟩
    ∧ unmountReportsSuccess
        (unmount_nas { isdir := false } "/mnt/gone" false false false).result
        = false := by
  constructor <;> rfl

/-- C4 amended: on an already-gone mount point, `unmount_nas` returns the
failure value `(False, False)` without invoking the OS `umount` command —
and on no input whatsoever does `unmount_nas` raise: every path returns a
value. -/
theorem C4_unmount_gone_behavior :
    (∀ (env : UnmountEnv) (mp : String) (f l : Bool),
      env.euid = 0 → env.isdir = false →
      unmount_nas env mp f l false = ⟨.returned (.pair false false), false⟩)
    ∧ (∀ (env : UnmountEnv) (mp : String) (f l d : Bool) (e : String),
        (unmount_nas env mp f l d).result ≠ .raised e) := by
  constructor
  · intro env mp f l h0 hdir
    simp [unmount_nas, h0, hdir]
  · intro env mp f l d e
    unfold unmount_nas
    repeat' split
    all_goals exact fun h => PyOutcome.noConfusion h

/-- C6: the concrete dry-run scenario.  The default-valued NFSv3 target
(`mount_type` rw, transport tcp, majorvers 3) builds exactly the claimed
option string, and the dry-run `mount_nas` call returns success with the
assembled command without invoking the OS mount subprocess. -/
theorem C6_dry_run_option_string :
    _build_mount_options { mount_mode := "rw", transport := "tcp", majorvers := 3 }
      = .ok "rw,vers=3,proto=tcp,rsize=1048576,wsize=1048576,timeo=600,retrans=2,hard,intr,acregmin=3,acregmax=60,acdirmin=30,acdirmax=60,sec=sys"
    ∧ mount_nas {} "svmtest" "/vol1" "/mnt/test" 0 0
        { mount_mode := "rw", transport := "tcp", majorvers := 3 } true
      = ⟨.returned (.pair true "/mnt/test"), false,
         some ["mount", "-t", "nfs", "-o",
               "rw,vers=3,proto=tcp,rsize=1048576,wsize=1048576,timeo=600,retrans=2,hard,intr,acregmin=3,acregmax=60,acdirmin=30,acdirmax=60,sec=sys",
               "svmtest:/vol1", "/mnt/test"]⟩ := by
  constructor <;> rfl

/-- C9: every worker-pool test is claimed to append one aggregated record
whose passed flag is true only when every worker succeeded.
`test_nfs_concurrent_writers` joins its workers and appends exactly one
record, but records `passed=True` even when a worker failed — the aggregate
comparison `success_count == num_writers` was interpolated into the message
text (line 638) instead of being passed as the flag.  The sibling
`test_nfs4_parallel_io_performance` does aggregate correctly, confirming the
intent. -/
theorem C9_concurrent_writers_passed_always_true :
    (test_nfs_concurrent_writers
        { writerResults := [true, true, true, true, true, true, true, true, true, false] }
        (some [])).1
      = some [{ test := "concurrent_writers",
                description := "Verify that 10 concurrent writer threads can write to separate files without data corruption, confirming that NFS3 can handle concurrent write operations correctly",
                passed := true,
                message := "9 == 10 || 9/10 writers succeeded in 0.50s",
                timestamp := 0 }]
    ∧ [true, true, true, true, true, true, true, true, true, false].count true ≠ 10
    ∧ (test_nfs4_parallel_io_performance
        { workerResults := [true, true, true, true, true, true, true, true, true, false] }
        (some [])).1
      = some [{ test := "nfs4_parallel_io_performance",
                description := "Verify NFS4 parallel I/O performance",
                passed := false,
                message := "9/10 threads, 40.00 MB/s",
                timestamp := 0 }] := by
  refine ⟨rfl, by decide, rfl⟩

/-- C10: `print_summary` divides by the result count unconditionally, so the
empty results sequence raises `ZeroDivisionError`, while any nonempty
sequence succeeds; `generate_report` guards the same computation and renders
the `"N/A"` line when no test-result entries exist. -/
theorem C10_summary_zero_division_guard :
    print_summary [] = .error "ZeroDivisionError: division by zero"
    ∧ (∀ rs : List TestResult, rs ≠ [] → (print_summary rs).isOk = true)
    ∧ (∀ entries : List LogEntry, entries.filterMap entryResult = [] →
        generate_report_summary_lines entries
          = ["Total Tests: 0", "Passed: 0", "Failed: 0", "N/A", ""]) := by
  refine ⟨rfl, ?_, ?_⟩
  · intro rs h
    have hlen : rs.length ≠ 0 := by simpa using h
    simp [print_summary, hlen, Except.isOk, Except.toBool]
  · intro entries h
    simp only [generate_report_summary_lines, h]
    rfl

/-- C10 witness: the guarded branch at a concrete nonempty input. -/
theorem C10_witness :
    (print_summary [{ test := "t", description := "d", passed := true,
                      message := "", timestamp := 0 }]).isOk = true :=
  C10_summary_zero_division_guard.2.1 _ (by simp)

/-- C8: the read-only enforcement test records `passed=True` exactly when
the write attempt fails with errno 30 (EROFS) or 13 (EACCES), and records
`passed=False` when the write succeeds — denial is the passing condition. -/
theorem C8_readonly_enforcement :
    ∀ (rs : List TestResult) (ts : Nat),
      (∀ (e : Int) (m : String), e = 30 ∨ e = 13 →
        (test_nfs_readonly_mount_enforcement (.osErr e m) ts (some rs)).1
          = some (rs ++ [({ test := "readonly_mount_enforcement",
                            description := "Verify that a read-only mount correctly blocks write operations, confirming that NFS3 enforces read-only access restrictions as expected",
                            passed := true,
                            message := "Write blocked as expected (errno " ++ toString e ++ ")",
                            timestamp := ts } : TestResult)]))
      ∧ (test_nfs_readonly_mount_enforcement .ok ts (some rs)).1
          = some (rs ++ [({ test := "readonly_mount_enforcement",
                            description := "Verify that a read-only mount correctly blocks write operations, confirming that NFS3 enforces read-only access restrictions as expected",
                            passed := false,
                            message := "Write succeeded on ro mount!",
                            timestamp := ts } : TestResult)]) := by
  intro rs ts
  constructor
  · intro e m h
    simp [test_nfs_readonly_mount_enforcement, log_result, h]
  · rfl

/-- C8 witness: a concrete EROFS denial is recorded as a pass, a concrete
successful write as a failure. -/
theorem C8_witness :
    (test_nfs_readonly_mount_enforcement (.osErr 30 "blocked") 0 (some [])).1
      = some [({ test := "readonly_mount_enforcement",
                 description := "Verify that a read-only mount correctly blocks write operations, confirming that NFS3 enforces read-only access restrictions as expected",
                 passed := true,
                 message := "Write blocked as expected (errno " ++ toString (30 : Int) ++ ")",
                 timestamp := 0 } : TestResult)]
    ∧ (test_nfs_readonly_mount_enforcement .ok 0 (some [])).1
      = some [({ test := "readonly_mount_enforcement",
                 description := "Verify that a read-only mount correctly blocks write operations, confirming that NFS3 enforces read-only access restrictions as expected",
                 passed := false,
                 message := "Write succeeded on ro mount!",
                 timestamp := 0 } : TestResult)] := by
  have h := C8_readonly_enforcement [] 0
  exact ⟨by simpa using h.1 30 "blocked" (Or.inl rfl), by simpa using h.2⟩

/-- C4 witness: the amended behaviour at concrete inputs — a stale mount
point yields the failure pair without invoking `umount`, and a normal call
does not raise. -/
theorem C4_witness :
    unmount_nas { isdir := false } "/mnt/stale" true true false
        = ⟨.returned (.pair false false), false⟩
    ∧ (unmount_nas {} "/mnt/a" false false false).result ≠ .raised "boom" :=
  ⟨C4_unmount_gone_behavior.1 { isdir := false } "/mnt/stale" true true rfl rfl,
   C4_unmount_gone_behavior.2 {} "/mnt/a" false false false "boom"⟩

/-- C2 counterexample: `exec_mounts.mount_nas` reports success for a mount
whose command exited 0 while the mount point is absent from the live mount
table — the function never consults the table, refuting the claimed
if-and-only-if for this mount implementation (its caller performs the
`os.path.ismount` check separately). -/
theorem C2_counterexample :
    mountReportsSuccess
        (mount_nas { inMountTable := false } "svm" "/vol" "/mnt/p" 0 0 {} false).result
      = true
    ∧ ({ inMountTable := false } : MountEnv).inMountTable = false := by
  constructor <;> rfl

/-- C2 amended: `nfs3_test_suite.mount_nas` reports success exactly when the
mount command exits 0 and the mount point appears in the live mount listing,
while `exec_mounts.mount_nas` (run as root, directory present, no timeout or
exception, options valid) reports success exactly when the command exits 0,
independent of the mount table. -/
theorem C2_mount_success_criteria :
    (∀ (env : Nfs3MountEnv) (server export_path mt : String) (uid gid : Nat),
      env.excOpt = none →
      (nfs3ReportsSuccess (nfs3_mount_nas env server export_path mt uid gid) = true ↔
        env.returncode = 0 ∧ pyContains env.mountListOut env.tmpPath = true))
    ∧ (∀ (env : MountEnv) (server export_path mp : String) (uid gid : Nat)
        (o : MOUNT_OPTIONS) (s : String),
        env.euid = 0 → env.runTimeout = false → env.runExc = none →
        env.isdir = true → _build_mount_options o = .ok s →
        (mountReportsSuccess (mount_nas env server export_path mp uid gid o false).result
            = true ↔ env.returncode = 0)) := by
  constructor
  · intro env server export_path mt uid gid hexc
    simp only [nfs3_mount_nas, hexc]
    by_cases hrc : env.returncode = 0
    · by_cases hct : pyContains env.mountListOut env.tmpPath = true
      · simp [hrc, hct, nfs3ReportsSuccess]
      · simp [hrc, hct, nfs3ReportsSuccess]
    · simp [hrc, nfs3ReportsSuccess]
  · intro env server export_path mp uid gid o s h0 ht hexc hdir hb
    simp only [mount_nas, h0, hb, ht, hexc, hdir]
    by_cases hrc : env.returncode = 0
    · simp [hrc, mountReportsSuccess]
    · simp [hrc, mountReportsSuccess]

/-- C2 witness: both amended criteria at concrete inputs — the nfs3 variant
succeeds when exit 0 and the mount point is listed, and the exec_mounts
variant succeeds when exit 0. -/
theorem C2_witness :
    nfs3ReportsSuccess
        (nfs3_mount_nas
          { mountListOut := "svm:/vol on /tmp/nfs3_test_abc type nfs (rw)" }
          "svm" "/vol" "rw" 1000 1000) = true
    ∧ mountReportsSuccess
        (mount_nas {} "svm" "/vol" "/mnt/p" 0 0 {} false).result = true :=
  ⟨(C2_mount_success_criteria.1
      { mountListOut := "svm:/vol on /tmp/nfs3_test_abc type nfs (rw)" }
      "svm" "/vol" "rw" 1000 1000 rfl).mpr ⟨rfl, by rfl⟩,
   (C2_mount_success_criteria.2 {} "svm" "/vol" "/mnt/p" 0 0 {}
      "rw,vers=3,proto=tcp,rsize=1048576,wsize=1048576,timeo=600,retrans=2,hard,intr,acregmin=3,acregmax=60,acdirmin=30,acdirmax=60,sec=sys"
      rfl rfl rfl rfl (by rfl)).mpr rfl⟩

/-- C5 counterexample: two explicit inputs refute the claim as stated.  The
input `"x "` has no `<N>` header, but `decode_priority` returns the stripped
text `"x"` as the body rather than the original string; and for the parsed
PRI 96 (facility code 12) the source's facility table has no entry — the
standard table maps 12 — so decoding falls back to `"fac12"`. -/
theorem C5_counterexample :
    decode_priority "x " = ("unknown", "unknown", "x")
    ∧ ("x" : String) ≠ "x "
    ∧ decode_priority "<96>m" = ("fac12", "EMERG", "m")
    ∧ FACILITIES 12 = none := by
  refine ⟨rfl, by decide, rfl, rfl⟩

/-- Helper: `takeWhile isDigit` over an all-digit block stops exactly at the
following `'>'`. -/
theorem takeWhile_digits_append (ds body : List Char)
    (h : ∀ c ∈ ds, c.isDigit = true) :
    (ds ++ '>' :: body).takeWhile Char.isDigit = ds := by
  induction ds with
  | nil =>
    simp [List.takeWhile_cons]
  | cons c cs ih =>
    have hc : c.isDigit = true := h c (by simp)
    have hcs : ∀ x ∈ cs, x.isDigit = true := fun x hx => h x (by simp [hx])
    simp [List.takeWhile_cons, hc, ih hcs]

/-- Helper: `dropWhile isDigit` over an all-digit block drops exactly the
block, leaving the `'>'` and the body. -/
theorem dropWhile_digits_append (ds body : List Char)
    (h : ∀ c ∈ ds, c.isDigit = true) :
    (ds ++ '>' :: body).dropWhile Char.isDigit = '>' :: body := by
  induction ds with
  | nil =>
    simp [List.dropWhile_cons]
  | cons c cs ih =>
    have hc : c.isDigit = true := h c (by simp)
    have hcs : ∀ x ∈ cs, x.isDigit = true := fun x hx => h x (by simp [hx])
    simp [List.dropWhile_cons, hc, ih hcs]

/-- Helper: the `<PRI>` matcher succeeds, with the digit block as PRI, on
every well-formed header string. -/
theorem parse_pri_header_well_formed (ds : List Char) (hne : ds ≠ [])
    (hd : ∀ c ∈ ds, c.isDigit = true) (body : List Char) :
    parse_pri_header (String.mk ('<' :: (ds ++ '>' :: body)))
      = some (digitsToNat ds, String.mk body) := by
  cases ds with
  | nil => exact absurd rfl hne
  | cons c cs =>
    have h1 : List.takeWhile Char.isDigit (c :: (cs ++ '>' :: body)) = c :: cs := by
      simpa using takeWhile_digits_append (c :: cs) body hd
    have h2 : List.dropWhile Char.isDigit (c :: (cs ++ '>' :: body)) = '>' :: body := by
      simpa using dropWhile_digits_append (c :: cs) body hd
    simp [parse_pri_header, List.span_eq_take_drop, h1, h2]

/-- C5 amended: the concrete example decodes exactly as claimed; an input
with no parseable `<N>` header decodes to unknown/unknown with the
whitespace-stripped input (not the verbatim original) as body; a parsed PRI
is mapped through the source's facility table — which covers codes 0–11 and
16–23 only, other codes rendering as `fac<N>` — and through the full 0–7
severity table, with the body stripped; and every `<digits>`-headed message
parses to the decimal value of its digit block. -/
theorem C5_decode_priority_behavior :
    decode_priority "<134>Oct 1 00:00:00 host app: msg"
        = ("local0", "INFO", "Oct 1 00:00:00 host app: msg")
    ∧ (∀ raw : String, parse_pri_header (pyStrip raw) = none →
        decode_priority raw = ("unknown", "unknown", pyStrip raw))
    ∧ (∀ (raw : String) (pri : Nat) (rest : String),
        parse_pri_header (pyStrip raw) = some (pri, rest) →
        decode_priority raw =
          ((FACILITIES (pri >>> 3)).getD ("fac" ++ toString (pri >>> 3)),
           (SEVERITIES (pri &&& 7)).getD ("sev" ++ toString (pri &&& 7)),
           pyStrip rest))
    ∧ (∀ ds : List Char, ds ≠ [] → (∀ c ∈ ds, c.isDigit = true) →
        ∀ body : List Char,
          parse_pri_header (String.mk ('<' :: (ds ++ '>' :: body)))
            = some (digitsToNat ds, String.mk body)) := by
  refine ⟨rfl, ?_, ?_, parse_pri_header_well_formed⟩
  · intro raw h
    simp [decode_priority, h]
  · intro raw pri rest h
    simp [decode_priority, h]

/-- C5 witness: the amended behaviour at concrete inputs — a headerless
message and a well-formed header. -/
theorem C5_witness :
    decode_priority "plain message" = ("unknown", "unknown", pyStrip "plain message")
    ∧ parse_pri_header (String.mk ('<' :: (['9', '6'] ++ '>' :: ['m'])))
        = some (digitsToNat ['9', '6'], String.mk ['m']) :=
  ⟨C5_decode_priority_behavior.2.1 "plain message" rfl,
   C5_decode_priority_behavior.2.2.2 ['9', '6'] (by decide) (by decide) ['m']⟩

/-- C7 counterexample: a mount whose active configuration is NFSv3
(`majorvers=3`, so its option string mounts with `vers=3`) can nevertheless
invoke NFSv4-only tests: the version gate is a substring test of
`'majorvers=4'` against the options repr, and a string-valued option field
containing that text — here `transport='majorvers=4'` — satisfies it. -/
theorem C7_counterexample :
    ({ majorvers := 3, transport := "majorvers=4" } : MOUNT_OPTIONS).majorvers = 3
    ∧ _build_mount_options { majorvers := 3, transport := "majorvers=4" }
        = .ok "rw,vers=3,proto=majorvers=4,rsize=1048576,wsize=1048576,timeo=600,retrans=2,hard,intr,acregmin=3,acregmax=60,acdirmin=30,acdirmax=60,sec=sys"
    ∧ pyContains
        "rw,vers=3,proto=majorvers=4,rsize=1048576,wsize=1048576,timeo=600,retrans=2,hard,intr,acregmin=3,acregmax=60,acdirmin=30,acdirmax=60,sec=sys"
        "vers=3" = true
    ∧ (nfs_suite_invoked_tests { majorvers := 3, transport := "majorvers=4" }).contains
        "test_nfs4_transport_protocol" = true := by
  refine ⟨rfl, rfl, rfl, by decide⟩

/-- C7 amended: for every `majorvers=3` configuration whose options repr
does not contain the substring `'majorvers=4'` (true of all documented
values of the string-valued fields `transport` and `sec`), no test with the
NFSv4-only prefix is invoked; and for every configuration whatsoever the
NFSv4 block is all-or-nothing — the gate is evaluated once per mount, so the
invoked NFSv4-only tests are either none or exactly the discovered
`test_nfs4_` list. -/
theorem C7_version_gate :
    (∀ o : MOUNT_OPTIONS, o.majorvers = 3 →
      pyContains (reprMOUNT_OPTIONS o) "majorvers=4" = false →
      (nfs_suite_invoked_tests o).filter (fun n => pyStartsWith n "test_nfs4_") = [])
    ∧ (∀ o : MOUNT_OPTIONS,
        (nfs_suite_invoked_tests o).filter (fun n => pyStartsWith n "test_nfs4_") = []
        ∨ (nfs_suite_invoked_tests o).filter (fun n => pyStartsWith n "test_nfs4_")
            = (get_test_functions "test_nfs4_").map Prod.fst) := by
  constructor
  · intro o h3 h4
    by_cases hg3 : pyContains (reprMOUNT_OPTIONS o) "majorvers=3" = true
    · simp only [nfs_suite_invoked_tests, h4, hg3]
      decide
    · simp only [nfs_suite_invoked_tests, h4, hg3]
      decide
  · intro o
    by_cases hg4 : pyContains (reprMOUNT_OPTIONS o) "majorvers=4" = true
    · right
      by_cases hg3 : pyContains (reprMOUNT_OPTIONS o) "majorvers=3" = true
      · simp only [nfs_suite_invoked_tests, hg4, hg3]
        decide
      · simp only [nfs_suite_invoked_tests, hg4, hg3]
        decide
    · left
      by_cases hg3 : pyContains (reprMOUNT_OPTIONS o) "majorvers=3" = true
      · simp only [nfs_suite_invoked_tests, hg4, hg3]
        decide
      · simp only [nfs_suite_invoked_tests, hg4, hg3]
        decide

/-- C7 witness: the amended gate at a concrete NFSv3 configuration with
documented field values — no NFSv4-only test is invoked. -/
theorem C7_witness :
    (nfs_suite_invoked_tests { majorvers := 3, transport := "tcp" }).filter
        (fun n => pyStartsWith n "test_nfs4_") = [] :=
  C7_version_gate.1 { majorvers := 3, transport := "tcp" } rfl (by rfl)

end FileCertify
